import Mathlib

/-!
Verification of `super-slomo/models/layers.py` (Super SloMo network layers,
TensorFlow 2 implementation).

Tensors are modelled as 4-D arrays in NHWC layout: a shape `[batch, height,
width, channels]` together with a total data function on indices valued in ℝ
(real arithmetic stands for the float arithmetic of the framework).  Every
layer `call` method is translated into a Lean function on this tensor model;
framework primitives (`Conv2D` with "same" padding and stride 1,
`AveragePooling2D`, `UpSampling2D(interpolation="bilinear")`, `tf.pad`,
`tf.concat`, `tfa.image.dense_image_warp`) are modelled from their documented
semantics.  Learned weights are explicit structure arguments, so every layer
is a function of (weights, inputs).
-/

noncomputable section

/-- A 4-D tensor in NHWC layout: shape plus a total data function.
Out-of-range indices read arbitrary (unused) values of the total function. -/
structure Tensor4 where
  batch : Nat
  height : Nat
  width : Nat
  channels : Nat
  data : Nat → Nat → Nat → Nat → ℝ

/-- Elementwise map over a tensor. -/
def Tensor4.map (f : ℝ → ℝ) (t : Tensor4) : Tensor4 :=
  ⟨t.batch, t.height, t.width, t.channels, fun b i j c => f (t.data b i j c)⟩

/-- Elementwise combination of two tensors of the same shape
(shape metadata taken from the first argument, as in broadcasting-free ops). -/
def Tensor4.zipW (f : ℝ → ℝ → ℝ) (x y : Tensor4) : Tensor4 :=
  ⟨x.batch, x.height, x.width, x.channels,
    fun b i j c => f (x.data b i j c) (y.data b i j c)⟩

/-- Elementwise addition (`+` on tensors). -/
def Tensor4.add (x y : Tensor4) : Tensor4 := Tensor4.zipW (fun a b => a + b) x y

/-- Elementwise subtraction (`-` on tensors). -/
def Tensor4.sub (x y : Tensor4) : Tensor4 := Tensor4.zipW (fun a b => a - b) x y

/-- Elementwise (Hadamard) product (`*` on tensors). -/
def Tensor4.hmul (x y : Tensor4) : Tensor4 := Tensor4.zipW (fun a b => a * b) x y

/-- Elementwise division (`tf.divide`). -/
def Tensor4.hdiv (x y : Tensor4) : Tensor4 := Tensor4.zipW (fun a b => a / b) x y

/-- Multiplication of a tensor by a broadcast scalar. -/
def Tensor4.scale (a : ℝ) (x : Tensor4) : Tensor4 := x.map (fun v => a * v)

/-- Addition of a broadcast scalar to a tensor. -/
def Tensor4.addConst (x : Tensor4) (a : ℝ) : Tensor4 := x.map (fun v => v + a)

/-- Zero-padded read at signed indices: `tf` convolution "same" padding reads
zeros outside the spatial extent. -/
def Tensor4.getPad (t : Tensor4) (b : Nat) (i j : ℤ) (c : Nat) : ℝ :=
  if 0 ≤ i ∧ i < (t.height : ℤ) ∧ 0 ≤ j ∧ j < (t.width : ℤ) then
    t.data b i.toNat j.toNat c
  else 0

/-- Weights of a square `tf.keras.layers.Conv2D(filters, kernel_size,
strides=1, padding="same")` layer: kernel entries indexed
(row offset, column offset, input channel, output filter), plus a bias. -/
structure ConvWeights where
  filters : Nat
  kernel : Nat
  weight : Nat → Nat → Nat → Nat → ℝ
  bias : Nat → ℝ

/-- Model of `Conv2D` with stride 1 and "same" padding: output shape
`[b, h, w, filters]`, each output value a biased cross-correlation with
zero padding of `(kernel-1)/2` at the leading spatial edges. -/
def conv2d (cw : ConvWeights) (x : Tensor4) : Tensor4 :=
  ⟨x.batch, x.height, x.width, cw.filters, fun b i j f =>
    cw.bias f +
      ∑ di ∈ Finset.range cw.kernel, ∑ dj ∈ Finset.range cw.kernel,
        ∑ c ∈ Finset.range x.channels,
          cw.weight di dj c f *
            x.getPad b ((i : ℤ) + (di : ℤ) - (((cw.kernel - 1) / 2 : Nat) : ℤ))
              ((j : ℤ) + (dj : ℤ) - (((cw.kernel - 1) / 2 : Nat) : ℤ)) c⟩

/-- The `LeakyReLU(alpha=0.1)` activation on a scalar. -/
def leakyReluV (x : ℝ) : ℝ := if x < 0 then 0.1 * x else x

/-- The `LeakyReLU(alpha=0.1)` activation applied elementwise. -/
def leakyRelu (t : Tensor4) : Tensor4 := t.map leakyReluV

/-- Output spatial size of `AveragePooling2D()` (pool 2, stride 2, "valid"):
`(h-2)/2 + 1` when `h ≥ 2`, else an empty dimension. -/
def poolDim (h : Nat) : Nat := if h < 2 then 0 else (h - 2) / 2 + 1

/-- Model of `AveragePooling2D()` with default pool size 2, stride 2, "valid" padding. -/
def avgPool2 (x : Tensor4) : Tensor4 :=
  ⟨x.batch, poolDim x.height, poolDim x.width, x.channels, fun b i j c =>
    (x.data b (2 * i) (2 * j) c + x.data b (2 * i) (2 * j + 1) c +
        x.data b (2 * i + 1) (2 * j) c + x.data b (2 * i + 1) (2 * j + 1) c) / 4⟩

/-- Half-pixel-centres source coordinate used by `tf.image.resize` for a
2x bilinear upsampling: `(i + 1/2) * (1/2) - 1/2`. -/
def srcCoord (i : Nat) : ℝ := ((i : ℝ) + 1 / 2) * (1 / 2) - 1 / 2

/-- Clamp a signed index into `[0, size-1]` (the `Bound` of TF resize). -/
def boundIdx (v : ℤ) (size : Nat) : Nat := (min (max v 0) ((size : ℤ) - 1)).toNat

/-- Model of `UpSampling2D(interpolation="bilinear")`: doubles both spatial dimensions,
sampling with bilinear interpolation at half-pixel-centres source
coordinates, with floor/ceil indices clamped into range. -/
def upSample2 (x : Tensor4) : Tensor4 :=
  ⟨x.batch, 2 * x.height, 2 * x.width, x.channels, fun b i j c =>
    let sy := srcCoord i
    let sx := srcCoord j
    let ly := boundIdx ⌊sy⌋ x.height
    let uy := boundIdx ⌈sy⌉ x.height
    let lx := boundIdx ⌊sx⌋ x.width
    let ux := boundIdx ⌈sx⌉ x.width
    let ay := sy - (⌊sy⌋ : ℝ)
    let ax := sx - (⌊sx⌋ : ℝ)
    let top := x.data b ly lx c + (x.data b ly ux c - x.data b ly lx c) * ax
    let bot := x.data b uy lx c + (x.data b uy ux c - x.data b uy lx c) * ax
    top + (bot - top) * ay⟩

/-- Model of `tf.pad(x, [[0,0],[0,dh],[0,dw],[0,0]])`: zero padding at the bottom and
right spatial edges only. -/
def padBR (x : Tensor4) (dh dw : Nat) : Tensor4 :=
  ⟨x.batch, x.height + dh, x.width + dw, x.channels, fun b i j c =>
    if i < x.height ∧ j < x.width then x.data b i j c else 0⟩

/-- Concatenation (`tf.concat` or `Concatenate(axis=3)`) of two tensors along the channel axis. -/
def concatC (x y : Tensor4) : Tensor4 :=
  ⟨x.batch, x.height, x.width, x.channels + y.channels, fun b i j c =>
    if c < x.channels then x.data b i j c else y.data b i j (c - x.channels)⟩

/-- Channel slice `t[:, :, :, lo:hi]`. -/
def sliceC (x : Tensor4) (lo hi : Nat) : Tensor4 :=
  ⟨x.batch, x.height, x.width, hi - lo, fun b i j c => x.data b i j (lo + c)⟩

/-- Weights of an `Encoder` layer (two convolutions; the pooling and the
leaky ReLU have no weights). -/
structure EncoderWeights where
  conv1 : ConvWeights
  conv2 : ConvWeights

/-- Model of `Encoder.call`: average pooling, then conv1 + LeakyReLU, then
conv2 + LeakyReLU. -/
def Encoder.call (ew : EncoderWeights) (inputs : Tensor4) : Tensor4 :=
  let x := avgPool2 inputs
  let x := conv2d ew.conv1 x
  let x := leakyRelu x
  let x := conv2d ew.conv2 x
  let x := leakyRelu x
  x

/-- Weights of a `Decoder` layer (two convolutions; upsampling, padding,
concatenation and leaky ReLU have no weights). -/
structure DecoderWeights where
  conv1 : ConvWeights
  conv2 : ConvWeights

/-- Model of `Decoder.call` on the input pair `[x, skip]`: bilinear 2x upsampling,
conv1 + LeakyReLU, zero-pad the bottom/right to the spatial shape of the
skip tensor, concatenate with the skip tensor along axis 3, conv2 + LeakyReLU. -/
def Decoder.call (dw : DecoderWeights) (x0 skip : Tensor4) : Tensor4 :=
  let x := upSample2 x0
  let x := conv2d dw.conv1 x
  let x := leakyRelu x
  let x_delta := skip.height - x.height
  let y_delta := skip.width - x.width
  let x := padBR x x_delta y_delta
  let x := concatC x skip
  let x := conv2d dw.conv2 x
  let x := leakyRelu x
  x

/-- Weights of the `UNet` layer, as created by `UNet.build`. -/
structure UNetWeights where
  out_filters : Nat
  conv1 : ConvWeights
  conv2 : ConvWeights
  encoder1 : EncoderWeights
  encoder2 : EncoderWeights
  encoder3 : EncoderWeights
  encoder4 : EncoderWeights
  encoder5 : EncoderWeights
  decoder1 : DecoderWeights
  decoder2 : DecoderWeights
  decoder3 : DecoderWeights
  decoder4 : DecoderWeights
  decoder5 : DecoderWeights
  conv3 : ConvWeights

/-- A convolution weight structure has the architecture (filter count and
kernel size) requested by a `build` method. -/
def ConvBuilt (cw : ConvWeights) (f k : Nat) : Prop :=
  cw.filters = f ∧ cw.kernel = k

/-- An encoder weight structure has the architecture `Encoder(filters,
kernel_size)` from `UNet.build`. -/
def EncoderBuilt (ew : EncoderWeights) (f k : Nat) : Prop :=
  ConvBuilt ew.conv1 f k ∧ ConvBuilt ew.conv2 f k

/-- A decoder weight structure has the architecture `Decoder(filters)` from
`UNet.build` (both convolutions use kernel size 3). -/
def DecoderBuilt (dw : DecoderWeights) (f : Nat) : Prop :=
  ConvBuilt dw.conv1 f 3 ∧ ConvBuilt dw.conv2 f 3

/-- The weight structure produced by `UNet.build`: conv1/conv2 are 32-filter
7x7 convolutions, the encoders are `Encoder(64,5), Encoder(128,5),
Encoder(256,3), Encoder(512,3), Encoder(512,3)`, the decoders are
`Decoder(512), Decoder(256), Decoder(128), Decoder(64), Decoder(32)`, and
conv3 is an `out_filters`-filter 3x3 convolution. -/
def UNetBuilt (w : UNetWeights) : Prop :=
  ConvBuilt w.conv1 32 7 ∧ ConvBuilt w.conv2 32 7 ∧
  EncoderBuilt w.encoder1 64 5 ∧ EncoderBuilt w.encoder2 128 5 ∧
  EncoderBuilt w.encoder3 256 3 ∧ EncoderBuilt w.encoder4 512 3 ∧
  EncoderBuilt w.encoder5 512 3 ∧
  DecoderBuilt w.decoder1 512 ∧ DecoderBuilt w.decoder2 256 ∧
  DecoderBuilt w.decoder3 128 ∧ DecoderBuilt w.decoder4 64 ∧
  DecoderBuilt w.decoder5 32 ∧
  ConvBuilt w.conv3 w.out_filters 3

/-- Model of `UNet.call`: conv1 + LeakyReLU, conv2 + LeakyReLU (skip1), the five
encoders (skip2..skip5 and the bottleneck), the five decoders against the
skip tensors in reverse order, then conv3 + LeakyReLU. -/
def UNet.call (w : UNetWeights) (inputs : Tensor4) : Tensor4 :=
  let x_enc := conv2d w.conv1 inputs
  let x_enc := leakyRelu x_enc
  let skip := conv2d w.conv2 x_enc
  let skip1 := leakyRelu skip
  let skip2 := Encoder.call w.encoder1 skip1
  let skip3 := Encoder.call w.encoder2 skip2
  let skip4 := Encoder.call w.encoder3 skip3
  let skip5 := Encoder.call w.encoder4 skip4
  let x_enc2 := Encoder.call w.encoder5 skip5
  let x_dec := Decoder.call w.decoder1 x_enc2 skip5
  let x_dec := Decoder.call w.decoder2 x_dec skip4
  let x_dec := Decoder.call w.decoder3 x_dec skip3
  let x_dec := Decoder.call w.decoder4 x_dec skip2
  let x_dec := Decoder.call w.decoder5 x_dec skip1
  let x_dec := conv2d w.conv3 x_dec
  let x_dec := leakyRelu x_dec
  x_dec

/-- Clamped floor index of `tfa.image.interpolate_bilinear` along one
dimension: `min(max(0, floor(q)), size - 2)`. -/
def clampFloorTFA (q : ℝ) (size : Nat) : ℤ := min (max 0 ⌊q⌋) ((size : ℤ) - 2)

/-- Interpolation weight of `tfa.image.interpolate_bilinear` along one
dimension: `q - floor`, clipped into `[0, 1]`. -/
def alphaTFA (q : ℝ) (f : ℤ) : ℝ := min (max 0 (q - (f : ℝ))) 1

/-- Bilinear grid sampling of `tfa.image.interpolate_bilinear` at query
point `(qy, qx)`: clamped floors, clipped weights, then a lerp of lerps
(top row first, then between rows). -/
def interpolateBilinear (img : Tensor4) (b : Nat) (qy qx : ℝ) (c : Nat) : ℝ :=
  let fy := clampFloorTFA qy img.height
  let fx := clampFloorTFA qx img.width
  let ay := alphaTFA qy fy
  let ax := alphaTFA qx fx
  let tl := img.data b fy.toNat fx.toNat c
  let tr := img.data b fy.toNat (fx + 1).toNat c
  let bl := img.data b (fy + 1).toNat fx.toNat c
  let br := img.data b (fy + 1).toNat (fx + 1).toNat c
  let top := tl + (tr - tl) * ax
  let bot := bl + (br - bl) * ax
  top + (bot - top) * ay

/-- Model of `tfa.image.dense_image_warp(image, flow)`: the output at pixel
`(b, i, j, c)` samples the image bilinearly at query point
`(i - flow[b,i,j,0], j - flow[b,i,j,1])`; the output shape is the image
shape. -/
def denseImageWarp (image flow : Tensor4) : Tensor4 :=
  ⟨image.batch, image.height, image.width, image.channels, fun b i j c =>
    interpolateBilinear image b ((i : ℝ) - flow.data b i j 0)
      ((j : ℝ) - flow.data b i j 1) c⟩

/-- Model of `BackWarp.call` on the input pair `[image, flow]`: delegates to
`tfa.image.dense_image_warp`. -/
def BackWarp.call (image flow : Tensor4) : Tensor4 := denseImageWarp image flow

/-- The sigmoid activation `tf.keras.activations.sigmoid`. -/
def sigmoid (x : ℝ) : ℝ := 1 / (1 + Real.exp (-x))

/-- Sigmoid applied elementwise. -/
def sigmoidT (t : Tensor4) : Tensor4 := t.map sigmoid

/-- The map `1 - t` elementwise (broadcast subtraction from the scalar 1). -/
def oneSub (t : Tensor4) : Tensor4 := t.map (fun v => 1 - v)

/-- The scalar `t0_value = (-1 * (1 - t_indeces)) * t_indeces` from `OpticalFlow.call`. -/
def OpticalFlow.t0Value (t : ℝ) : ℝ := (-1 * (1 - t)) * t

/-- The blend `f_t0_t = (t0_value * f_01) + (t1_value * f_10)` with
`t1_value = t_indeces * t_indeces`, from `OpticalFlow.call`. -/
def OpticalFlow.fT0T (t : ℝ) (f01 f10 : Tensor4) : Tensor4 :=
  Tensor4.add (Tensor4.scale (OpticalFlow.t0Value t) f01)
    (Tensor4.scale (t * t) f10)

/-- The blend `f_t1_t = (t1_value * f_01) - (t0_value * f_10)` with the reassigned
`t1_value = (1 - t_indeces) * (1 - t_indeces)`, from `OpticalFlow.call`. -/
def OpticalFlow.fT1T (t : ℝ) (f01 f10 : Tensor4) : Tensor4 :=
  Tensor4.sub (Tensor4.scale ((1 - t) * (1 - t)) f01)
    (Tensor4.scale (OpticalFlow.t0Value t) f10)

/-- The input concatenation of the flow-interpolation UNet:
`tf.concat([frames_0, frames_1, f_01, f_10, f_t1_t, f_t0_t, g_i1_ft1,
g_i0_ft0], axis=3)`. -/
def OpticalFlow.interpIn (frames_0 frames_1 f_01 f_10 f_t1_t f_t0_t
    g_i1_ft1 g_i0_ft0 : Tensor4) : Tensor4 :=
  concatC frames_0 (concatC frames_1 (concatC f_01 (concatC f_10
    (concatC f_t1_t (concatC f_t0_t (concatC g_i1_ft1 g_i0_ft0))))))

/-- The six tensors returned by `OpticalFlow.call`, in return order. -/
structure OFOut where
  f_t0 : Tensor4
  v_t0 : Tensor4
  f_t1 : Tensor4
  v_t1 : Tensor4
  g_i0_ft0 : Tensor4
  g_i1_ft1 : Tensor4

/-- Model of `OpticalFlow.call` on inputs `(frames_0, frames_1, f_01, f_10,
t_indeces)`: blends the intermediate flows, backward-warps both frames by
them, feeds the 8-tensor concatenation through the `UNet(5)` flow
interpolation layer (weights `w`), splits its output into two flow residuals
and a visibility logit, and returns the refined flows, the visibility maps
and the warped frames. -/
def OpticalFlow.call (w : UNetWeights) (frames_0 frames_1 f_01 f_10 : Tensor4)
    (t_indeces : ℝ) : OFOut :=
  let f_t0_t := OpticalFlow.fT0T t_indeces f_01 f_10
  let f_t1_t := OpticalFlow.fT1T t_indeces f_01 f_10
  let g_i0_ft0 := BackWarp.call frames_0 f_t0_t
  let g_i1_ft1 := BackWarp.call frames_1 f_t1_t
  let flow_interp_in :=
    OpticalFlow.interpIn frames_0 frames_1 f_01 f_10 f_t1_t f_t0_t
      g_i1_ft1 g_i0_ft0
  let flow_interp_out := UNet.call w flow_interp_in
  let delta_f_t0 := sliceC flow_interp_out 0 2
  let delta_f_t1 := sliceC flow_interp_out 2 4
  let v_t0 := sigmoidT (sliceC flow_interp_out 4 5)
  let v_t1 := oneSub v_t0
  let f_t0 := Tensor4.add f_t0_t delta_f_t0
  let f_t1 := Tensor4.add f_t1_t delta_f_t1
  ⟨f_t0, v_t0, f_t1, v_t1, g_i0_ft0, g_i1_ft1⟩

/-- The denominator `z = ((1 - t_indeces) * v_t0) + (t_indeces * v_t1) +
1e-12` of `Output.call`. -/
def Output.z (v_t0 v_t1 : Tensor4) (t_indeces : ℝ) : Tensor4 :=
  Tensor4.addConst
    (Tensor4.add (Tensor4.scale (1 - t_indeces) v_t0)
      (Tensor4.scale t_indeces v_t1)) 1e-12

/-- Model of `Output.call` on inputs `(frames_0, f_t0, v_t0, frames_1, f_t1, v_t1,
t_indeces)`: backward-warps both frames by the refined flows and returns the
visibility-weighted normalized blend of the two warped frames. -/
def Output.call (frames_0 f_t0 v_t0 frames_1 f_t1 v_t1 : Tensor4)
    (t_indeces : ℝ) : Tensor4 :=
  let g_i0_ft0 := BackWarp.call frames_0 f_t0
  let g_i1_ft1 := BackWarp.call frames_1 f_t1
  let z := Output.z v_t0 v_t1 t_indeces
  let frame_pred :=
    Tensor4.add (Tensor4.hmul (Tensor4.scale (1 - t_indeces) v_t0) g_i0_ft0)
      (Tensor4.hmul (Tensor4.scale t_indeces v_t1) g_i1_ft1)
  Tensor4.hdiv frame_pred z

/-- The behaviour claimed for `Decoder.call` on `[x0, skip]`: the bilinear
upsampling doubles both spatial dimensions; after conv1 + LeakyReLU the
tensor is zero-padded at the bottom and right by exactly
`skip.height - height` rows and `skip.width - width` columns so that its
spatial shape equals that of skip, values inside the original extent kept
and the pad region being zero; the concatenation with skip changes only the
channel axis, stacking the channels of the padded tensor before those of
skip; and the
decoder output is conv2 + LeakyReLU of that concatenation. -/
def Decoder.padConcatSpec (dw : DecoderWeights) (x0 skip : Tensor4) : Prop :=
  let y := leakyRelu (conv2d dw.conv1 (upSample2 x0))
  let p := padBR y (skip.height - y.height) (skip.width - y.width)
  let cat := concatC p skip
  ((upSample2 x0).height = 2 * x0.height ∧
    (upSample2 x0).width = 2 * x0.width) ∧
  (y.height = 2 * x0.height ∧ y.width = 2 * x0.width) ∧
  (p.height = skip.height ∧ p.width = skip.width ∧ p.channels = y.channels) ∧
  (∀ b i j c, i < y.height → j < y.width → p.data b i j c = y.data b i j c) ∧
  (∀ b i j c, y.height ≤ i ∨ y.width ≤ j → p.data b i j c = 0) ∧
  (cat.batch = p.batch ∧ cat.height = skip.height ∧ cat.width = skip.width ∧
    cat.channels = p.channels + skip.channels) ∧
  (∀ b i j c, c < p.channels → cat.data b i j c = p.data b i j c) ∧
  (∀ b i j c, p.channels ≤ c → cat.data b i j c = skip.data b i j (c - p.channels)) ∧
  Decoder.call dw x0 skip = leakyRelu (conv2d dw.conv2 cat)

/-- A constant tensor of the given shape, used as concrete test input. -/
def constT (b h w c : Nat) (v : ℝ) : Tensor4 := ⟨b, h, w, c, fun _ _ _ _ => v⟩

/-- A small 1x2x2x1 test image whose pixels are pairwise distinct. -/
def rampT : Tensor4 := ⟨1, 2, 2, 1, fun _ i j _ => (i : ℝ) + 2 * (j : ℝ)⟩

/-- Concrete all-zero convolution weights of a given architecture. -/
def zeroConvW (f k : Nat) : ConvWeights := ⟨f, k, fun _ _ _ _ => 0, fun _ => 0⟩

/-- Concrete all-zero encoder weights of a given architecture. -/
def zeroEncoderW (f k : Nat) : EncoderWeights := ⟨zeroConvW f k, zeroConvW f k⟩

/-- Concrete all-zero decoder weights of a given architecture. -/
def zeroDecoderW (f : Nat) : DecoderWeights := ⟨zeroConvW f 3, zeroConvW f 3⟩

/-- Concrete all-zero UNet weights with the architecture of `UNet.build`. -/
def zeroUNetW (outF : Nat) : UNetWeights :=
  ⟨outF, zeroConvW 32 7, zeroConvW 32 7,
    zeroEncoderW 64 5, zeroEncoderW 128 5, zeroEncoderW 256 3,
    zeroEncoderW 512 3, zeroEncoderW 512 3,
    zeroDecoderW 512, zeroDecoderW 256, zeroDecoderW 128,
    zeroDecoderW 64, zeroDecoderW 32, zeroConvW outF 3⟩

/-! ### Shape projection lemmas -/

@[simp] lemma conv2d_batch (cw : ConvWeights) (x : Tensor4) :
    (conv2d cw x).batch = x.batch := rfl

@[simp] lemma conv2d_height (cw : ConvWeights) (x : Tensor4) :
    (conv2d cw x).height = x.height := rfl

@[simp] lemma conv2d_width (cw : ConvWeights) (x : Tensor4) :
    (conv2d cw x).width = x.width := rfl

@[simp] lemma conv2d_channels (cw : ConvWeights) (x : Tensor4) :
    (conv2d cw x).channels = cw.filters := rfl

@[simp] lemma leakyRelu_batch (x : Tensor4) : (leakyRelu x).batch = x.batch := rfl

@[simp] lemma leakyRelu_height (x : Tensor4) : (leakyRelu x).height = x.height := rfl

@[simp] lemma leakyRelu_width (x : Tensor4) : (leakyRelu x).width = x.width := rfl

@[simp] lemma leakyRelu_channels (x : Tensor4) :
    (leakyRelu x).channels = x.channels := rfl

@[simp] lemma avgPool2_batch (x : Tensor4) : (avgPool2 x).batch = x.batch := rfl

@[simp] lemma avgPool2_height (x : Tensor4) :
    (avgPool2 x).height = poolDim x.height := rfl

@[simp] lemma avgPool2_width (x : Tensor4) :
    (avgPool2 x).width = poolDim x.width := rfl

@[simp] lemma avgPool2_channels (x : Tensor4) :
    (avgPool2 x).channels = x.channels := rfl

@[simp] lemma upSample2_batch (x : Tensor4) : (upSample2 x).batch = x.batch := rfl

@[simp] lemma upSample2_height (x : Tensor4) :
    (upSample2 x).height = 2 * x.height := rfl

@[simp] lemma upSample2_width (x : Tensor4) :
    (upSample2 x).width = 2 * x.width := rfl

@[simp] lemma upSample2_channels (x : Tensor4) :
    (upSample2 x).channels = x.channels := rfl

@[simp] lemma padBR_batch (x : Tensor4) (dh dw : Nat) :
    (padBR x dh dw).batch = x.batch := rfl

@[simp] lemma padBR_height (x : Tensor4) (dh dw : Nat) :
    (padBR x dh dw).height = x.height + dh := rfl

@[simp] lemma padBR_width (x : Tensor4) (dh dw : Nat) :
    (padBR x dh dw).width = x.width + dw := rfl

@[simp] lemma padBR_channels (x : Tensor4) (dh dw : Nat) :
    (padBR x dh dw).channels = x.channels := rfl

@[simp] lemma concatC_batch (x y : Tensor4) : (concatC x y).batch = x.batch := rfl

@[simp] lemma concatC_height (x y : Tensor4) :
    (concatC x y).height = x.height := rfl

@[simp] lemma concatC_width (x y : Tensor4) : (concatC x y).width = x.width := rfl

@[simp] lemma concatC_channels (x y : Tensor4) :
    (concatC x y).channels = x.channels + y.channels := rfl

@[simp] lemma sliceC_channels (x : Tensor4) (lo hi : Nat) :
    (sliceC x lo hi).channels = hi - lo := rfl

/-- The function `poolDim` is floor halving on dimensions of size at least 2. -/
lemma poolDim_eq {h : Nat} (hh : 2 ≤ h) : poolDim h = h / 2 := by
  unfold poolDim
  rw [if_neg (by omega)]
  omega

/-- The all-zero UNet weights have the architecture of `UNet.build`. -/
lemma zeroUNetW_built (outF : Nat) : UNetBuilt (zeroUNetW outF) :=
  ⟨⟨rfl, rfl⟩, ⟨rfl, rfl⟩, ⟨⟨rfl, rfl⟩, ⟨rfl, rfl⟩⟩, ⟨⟨rfl, rfl⟩, ⟨rfl, rfl⟩⟩,
    ⟨⟨rfl, rfl⟩, ⟨rfl, rfl⟩⟩, ⟨⟨rfl, rfl⟩, ⟨rfl, rfl⟩⟩, ⟨⟨rfl, rfl⟩, ⟨rfl, rfl⟩⟩,
    ⟨⟨rfl, rfl⟩, ⟨rfl, rfl⟩⟩, ⟨⟨rfl, rfl⟩, ⟨rfl, rfl⟩⟩, ⟨⟨rfl, rfl⟩, ⟨rfl, rfl⟩⟩,
    ⟨⟨rfl, rfl⟩, ⟨rfl, rfl⟩⟩, ⟨⟨rfl, rfl⟩, ⟨rfl, rfl⟩⟩, ⟨rfl, rfl⟩⟩

/-- The sigmoid is strictly positive. -/
lemma sigmoid_pos (x : ℝ) : 0 < sigmoid x := by
  unfold sigmoid
  positivity

/-- The sigmoid is strictly below 1. -/
lemma sigmoid_lt_one (x : ℝ) : sigmoid x < 1 := by
  unfold sigmoid
  rw [div_lt_one (by positivity)]
  have h := Real.exp_pos (-x)
  linarith

/-! ### Claim theorems -/

/-- C1: the first Super SloMo flow-interpolation equation
`f_t0_t = -(1-t)*t*f_01 + t^2*f_10` holds of the code, but the second does
not: at `t = 1/2`, `f_01 = 0`, `f_10 = 1` the code computes `f_t1_t = 1/4`
whereas the claimed equation `f_t1_t = (1-t)^2*f_01 - t*(1-t)*f_10`
evaluates to `-1/4` (the code adds `t*(1-t)*f_10` instead of subtracting
it, because `t0_value` is already negated and is then subtracted again). -/
theorem C1_flow_blend_divergence :
    (∀ (t : ℝ) (f01 f10 : Tensor4) (b i j c : Nat),
      (OpticalFlow.fT0T t f01 f10).data b i j c =
        -(1 - t) * t * f01.data b i j c + t ^ 2 * f10.data b i j c) ∧
    (OpticalFlow.fT1T (1 / 2) (constT 1 1 1 2 0) (constT 1 1 1 2 1)).data 0 0 0 0
        = 1 / 4 ∧
    (1 - (1 / 2 : ℝ)) ^ 2 * (constT 1 1 1 2 0).data 0 0 0 0 -
        (1 / 2 : ℝ) * (1 - 1 / 2) * (constT 1 1 1 2 1).data 0 0 0 0 = -(1 / 4) ∧
    ((1 : ℝ) / 4) ≠ -(1 / 4) := by
  refine ⟨fun t f01 f10 b i j c => ?_, ?_, ?_, by norm_num⟩
  · show OpticalFlow.t0Value t * f01.data b i j c + t * t * f10.data b i j c = _
    unfold OpticalFlow.t0Value
    ring
  · show (1 - (1 / 2 : ℝ)) * (1 - 1 / 2) * (constT 1 1 1 2 0).data 0 0 0 0 -
      OpticalFlow.t0Value (1 / 2) * (constT 1 1 1 2 1).data 0 0 0 0 = 1 / 4
    unfold OpticalFlow.t0Value constT
    norm_num
  · unfold constT
    norm_num

/-- C2: `Output.call` returns, elementwise, the visibility-weighted
normalized blend `((1-t)*v_t0*g0 + t*v_t1*g1) / ((1-t)*v_t0 + t*v_t1 +
1e-12)` of the two backward-warped frames `g0 = backwarp(frames_0, f_t0)`
and `g1 = backwarp(frames_1, f_t1)`. -/
theorem C2_output_blend (frames_0 f_t0 v_t0 frames_1 f_t1 v_t1 : Tensor4)
    (t : ℝ) (b i j c : Nat) :
    (Output.call frames_0 f_t0 v_t0 frames_1 f_t1 v_t1 t).data b i j c =
      ((1 - t) * v_t0.data b i j c * (BackWarp.call frames_0 f_t0).data b i j c +
          t * v_t1.data b i j c * (BackWarp.call frames_1 f_t1).data b i j c) /
        ((1 - t) * v_t0.data b i j c + t * v_t1.data b i j c + 1e-12) := rfl

/-- C3: `UNet.call` applies conv1 + LeakyReLU, conv2 + LeakyReLU (producing
skip1), the five encoders (producing skip2..skip5 and the bottleneck), then
the five decoders with the skip tensors in reverse order of production
(decoder1 with skip5, ..., decoder5 with skip1), then conv3 + LeakyReLU,
with no stage or skip connection omitted, duplicated or reordered. -/
theorem C3_unet_pipeline (w : UNetWeights) (x : Tensor4) :
    UNet.call w x =
      (let skip1 := leakyRelu (conv2d w.conv2 (leakyRelu (conv2d w.conv1 x)))
       let skip2 := Encoder.call w.encoder1 skip1
       let skip3 := Encoder.call w.encoder2 skip2
       let skip4 := Encoder.call w.encoder3 skip3
       let skip5 := Encoder.call w.encoder4 skip4
       let bottleneck := Encoder.call w.encoder5 skip5
       leakyRelu (conv2d w.conv3
         (Decoder.call w.decoder5
           (Decoder.call w.decoder4
             (Decoder.call w.decoder3
               (Decoder.call w.decoder2
                 (Decoder.call w.decoder1 bottleneck skip5) skip4) skip3)
             skip2) skip1))) := rfl

/-- C9: the visibility maps returned by `OpticalFlow.call` are complementary:
every element of `v_t0` is strictly between 0 and 1 (it is a sigmoid
output), and `v_t0 + v_t1 = 1` holds elementwise. -/
theorem C9_visibility_complementary (w : UNetWeights)
    (frames_0 frames_1 f_01 f_10 : Tensor4) (t : ℝ) (b i j k : Nat) :
    0 < (OpticalFlow.call w frames_0 frames_1 f_01 f_10 t).v_t0.data b i j k ∧
    (OpticalFlow.call w frames_0 frames_1 f_01 f_10 t).v_t0.data b i j k < 1 ∧
    (OpticalFlow.call w frames_0 frames_1 f_01 f_10 t).v_t0.data b i j k +
      (OpticalFlow.call w frames_0 frames_1 f_01 f_10 t).v_t1.data b i j k
        = 1 := by
  refine ⟨?_, ?_, ?_⟩ <;>
    simp only [OpticalFlow.call, sigmoidT, oneSub, sliceC, Tensor4.map]
  · exact sigmoid_pos _
  · exact sigmoid_lt_one _
  · ring

/-- C10: in `Output.call`, whenever `t` lies in `[0, 1]` and the visibility
maps are elementwise non-negative, the denominator
`z = (1-t)*v_t0 + t*v_t1 + 1e-12` is strictly positive at every element
(and `Output.call` divides exactly by this `z`). -/
theorem C10_denominator_pos (v_t0 v_t1 : Tensor4) (t : ℝ)
    (ht0 : 0 ≤ t) (ht1 : t ≤ 1)
    (h0 : ∀ b i j k, 0 ≤ v_t0.data b i j k)
    (h1 : ∀ b i j k, 0 ≤ v_t1.data b i j k) :
    (∀ b i j k, 0 < (Output.z v_t0 v_t1 t).data b i j k) ∧
    (∀ frames_0 f_t0 frames_1 f_t1,
      Output.call frames_0 f_t0 v_t0 frames_1 f_t1 v_t1 t =
        Tensor4.hdiv
          (Tensor4.add
            (Tensor4.hmul (Tensor4.scale (1 - t) v_t0)
              (BackWarp.call frames_0 f_t0))
            (Tensor4.hmul (Tensor4.scale t v_t1)
              (BackWarp.call frames_1 f_t1)))
          (Output.z v_t0 v_t1 t)) := by
  refine ⟨fun b i j k => ?_, fun frames_0 f_t0 frames_1 f_t1 => rfl⟩
  show 0 < (1 - t) * v_t0.data b i j k + t * v_t1.data b i j k + 1e-12
  have ha : 0 ≤ (1 - t) * v_t0.data b i j k :=
    mul_nonneg (by linarith) (h0 b i j k)
  have hb : 0 ≤ t * v_t1.data b i j k := mul_nonneg ht0 (h1 b i j k)
  have hc : (0 : ℝ) < 1e-12 := by norm_num
  linarith

/-- C10 witness: at `t = 1/2` and all-zero visibility maps the hypotheses
hold and the denominator is strictly positive at index (0,0,0,0). -/
theorem C10_denominator_pos_witness :
    (0 : ℝ) ≤ 1 / 2 ∧ (1 / 2 : ℝ) ≤ 1 ∧
    (∀ b i j k, 0 ≤ (constT 1 1 1 1 0).data b i j k) ∧
    0 < (Output.z (constT 1 1 1 1 0) (constT 1 1 1 1 0) (1 / 2)).data 0 0 0 0 :=
  ⟨by norm_num, by norm_num, fun b i j k => le_refl 0,
    (C10_denominator_pos (constT 1 1 1 1 0) (constT 1 1 1 1 0) (1 / 2)
        (by norm_num) (by norm_num) (fun b i j k => le_refl 0)
        (fun b i j k => le_refl 0)).1 0 0 0 0⟩

/-- C4: `Decoder.call` on `[x0, skip]` bilinearly upsamples by a factor of 2
in each spatial dimension, applies conv1 + LeakyReLU, zero-pads only the
bottom/right edges by exactly the spatial difference to `skip`, concatenates
with `skip` changing only the channel axis, and applies conv2 + LeakyReLU
(stated as `Decoder.padConcatSpec`). -/
theorem C4_decoder_pad_concat (dw : DecoderWeights) (x0 skip : Tensor4)
    (hh : 2 * x0.height ≤ skip.height) (hw : 2 * x0.width ≤ skip.width) :
    Decoder.padConcatSpec dw x0 skip := by
  simp only [Decoder.padConcatSpec]
  refine ⟨⟨rfl, rfl⟩, ⟨rfl, rfl⟩, ⟨?_, ?_, rfl⟩, ?_, ?_, ⟨rfl, ?_, ?_, rfl⟩,
    ?_, ?_, rfl⟩
  · simp only [padBR_height, leakyRelu_height, conv2d_height, upSample2_height]
    omega
  · simp only [padBR_width, leakyRelu_width, conv2d_width, upSample2_width]
    omega
  · intro b i j c hi hj
    simp only [padBR]
    exact if_pos ⟨hi, hj⟩
  · intro b i j c h
    simp only [padBR]
    apply if_neg
    omega
  · simp only [concatC_height, padBR_height, leakyRelu_height, conv2d_height,
      upSample2_height]
    omega
  · simp only [concatC_width, padBR_width, leakyRelu_width, conv2d_width,
      upSample2_width]
    omega
  · intro b i j c h
    simp only [concatC]
    exact if_pos h
  · intro b i j c h
    simp only [concatC]
    exact if_neg (not_lt.mpr h)

/-- C4 witness: concrete decoder weights and inputs (a 1x2x2x4 tensor
against a 1x5x5x3 skip tensor) satisfying the hypotheses and the spec. -/
theorem C4_decoder_pad_concat_witness :
    2 * (constT 1 2 2 4 0).height ≤ (constT 1 5 5 3 0).height ∧
    2 * (constT 1 2 2 4 0).width ≤ (constT 1 5 5 3 0).width ∧
    Decoder.padConcatSpec (zeroDecoderW 32) (constT 1 2 2 4 0)
      (constT 1 5 5 3 0) :=
  ⟨by decide, by decide,
    C4_decoder_pad_concat (zeroDecoderW 32) (constT 1 2 2 4 0)
      (constT 1 5 5 3 0) (by decide) (by decide)⟩

/-- C6: `OpticalFlow.call` feeds the channel concatenation `[frames_0,
frames_1, f_01, f_10, f_t1_t, f_t0_t, g_i1_ft1, g_i0_ft0]` into the
5-output-channel flow-interpolation UNet, splits its output into the flow
residuals (channels 0-1 and 2-3) and the visibility logit (channel 4), and
returns the refined flows `f_t0_t + delta`, `f_t1_t + delta`, the
visibility maps `sigmoid(channel 4)` and its complement, and the two
backward-warped frames. -/
theorem C6_opticalflow_structure (w : UNetWeights) (hw : UNetBuilt w)
    (h5 : w.out_filters = 5) (frames_0 frames_1 f_01 f_10 : Tensor4)
    (t : ℝ) :
    (let f_t0_t := OpticalFlow.fT0T t f_01 f_10
     let f_t1_t := OpticalFlow.fT1T t f_01 f_10
     let g_i0_ft0 := BackWarp.call frames_0 f_t0_t
     let g_i1_ft1 := BackWarp.call frames_1 f_t1_t
     let u := UNet.call w (OpticalFlow.interpIn frames_0 frames_1 f_01 f_10
       f_t1_t f_t0_t g_i1_ft1 g_i0_ft0)
     u.channels = 5 ∧
     OpticalFlow.call w frames_0 frames_1 f_01 f_10 t =
       ⟨Tensor4.add f_t0_t (sliceC u 0 2), sigmoidT (sliceC u 4 5),
        Tensor4.add f_t1_t (sliceC u 2 4), oneSub (sigmoidT (sliceC u 4 5)),
        g_i0_ft0, g_i1_ft1⟩) := by
  refine ⟨?_, rfl⟩
  show w.conv3.filters = 5
  rw [hw.2.2.2.2.2.2.2.2.2.2.2.2.1, h5]

/-- C6 witness: the all-zero `UNet(5)` weights and concrete constant inputs
satisfy the hypotheses and the structural description of
`OpticalFlow.call`. -/
theorem C6_opticalflow_structure_witness :
    UNetBuilt (zeroUNetW 5) ∧ (zeroUNetW 5).out_filters = 5 ∧
    (let f_t0_t := OpticalFlow.fT0T (1 / 2) (constT 1 2 2 2 0) (constT 1 2 2 2 0)
     let f_t1_t := OpticalFlow.fT1T (1 / 2) (constT 1 2 2 2 0) (constT 1 2 2 2 0)
     let g_i0_ft0 := BackWarp.call (constT 1 2 2 3 0) f_t0_t
     let g_i1_ft1 := BackWarp.call (constT 1 2 2 3 0) f_t1_t
     let u := UNet.call (zeroUNetW 5)
       (OpticalFlow.interpIn (constT 1 2 2 3 0) (constT 1 2 2 3 0)
         (constT 1 2 2 2 0) (constT 1 2 2 2 0) f_t1_t f_t0_t g_i1_ft1 g_i0_ft0)
     u.channels = 5 ∧
     OpticalFlow.call (zeroUNetW 5) (constT 1 2 2 3 0) (constT 1 2 2 3 0)
         (constT 1 2 2 2 0) (constT 1 2 2 2 0) (1 / 2) =
       ⟨Tensor4.add f_t0_t (sliceC u 0 2), sigmoidT (sliceC u 4 5),
        Tensor4.add f_t1_t (sliceC u 2 4), oneSub (sigmoidT (sliceC u 4 5)),
        g_i0_ft0, g_i1_ft1⟩) :=
  ⟨zeroUNetW_built 5, rfl,
    C6_opticalflow_structure (zeroUNetW 5) (zeroUNetW_built 5) rfl
      (constT 1 2 2 3 0) (constT 1 2 2 3 0) (constT 1 2 2 2 0)
      (constT 1 2 2 2 0) (1 / 2)⟩

/-- C8: every layer call is a deterministic function of its input tensors
and built weights: two calls with identical weights and identical inputs
produce identical outputs, for each of `UNet`, `Encoder`, `Decoder`,
`BackWarp`, `OpticalFlow` and `Output` (the embedding is purely functional,
so no call mutates weights or outside state). -/
theorem C8_pure_deterministic
    {uw uw2 : UNetWeights} {ew ew2 : EncoderWeights} {dw dw2 : DecoderWeights}
    {xu xu2 xe xe2 xd xd2 s s2 img img2 fl fl2 : Tensor4}
    {uwo uwo2 : UNetWeights} {f0 f02 f1 f12 p01 p012 p10 p102 : Tensor4}
    {fo0 fo02 ft0 ft02 v0 v02 fo1 fo12 ft1 ft12 v1 v12 : Tensor4}
    {t t2 u u2 : ℝ}
    (h1 : (uw, xu) = (uw2, xu2))
    (h2 : (ew, xe) = (ew2, xe2))
    (h3 : (dw, xd, s) = (dw2, xd2, s2))
    (h4 : (img, fl) = (img2, fl2))
    (h5 : (uwo, f0, f1, p01, p10, t) = (uwo2, f02, f12, p012, p102, t2))
    (h6 : (fo0, ft0, v0, fo1, ft1, v1, u) = (fo02, ft02, v02, fo12, ft12, v12, u2)) :
    UNet.call uw xu = UNet.call uw2 xu2 ∧
    Encoder.call ew xe = Encoder.call ew2 xe2 ∧
    Decoder.call dw xd s = Decoder.call dw2 xd2 s2 ∧
    BackWarp.call img fl = BackWarp.call img2 fl2 ∧
    OpticalFlow.call uwo f0 f1 p01 p10 t =
      OpticalFlow.call uwo2 f02 f12 p012 p102 t2 ∧
    Output.call fo0 ft0 v0 fo1 ft1 v1 u =
      Output.call fo02 ft02 v02 fo12 ft12 v12 u2 := by
  simp only [Prod.mk.injEq] at h1 h2 h3 h4 h5 h6
  obtain ⟨rfl, rfl⟩ := h1
  obtain ⟨rfl, rfl⟩ := h2
  obtain ⟨rfl, rfl, rfl⟩ := h3
  obtain ⟨rfl, rfl⟩ := h4
  obtain ⟨rfl, rfl, rfl, rfl, rfl, rfl⟩ := h5
  obtain ⟨rfl, rfl, rfl, rfl, rfl, rfl, rfl⟩ := h6
  exact ⟨rfl, rfl, rfl, rfl, rfl, rfl⟩

/-- C8 witness: at concrete identical weight/input pairs the hypotheses hold
and each of the six layer calls yields identical outputs. -/
theorem C8_pure_deterministic_witness :
    ((zeroUNetW 5, constT 1 2 2 1 0) = (zeroUNetW 5, constT 1 2 2 1 0)) ∧
    ((zeroEncoderW 64 5, constT 1 2 2 1 0) = (zeroEncoderW 64 5, constT 1 2 2 1 0)) ∧
    ((zeroDecoderW 32, constT 1 2 2 1 0, constT 1 4 4 1 0) =
      (zeroDecoderW 32, constT 1 2 2 1 0, constT 1 4 4 1 0)) ∧
    ((constT 1 2 2 1 0, constT 1 2 2 2 0) = (constT 1 2 2 1 0, constT 1 2 2 2 0)) ∧
    ((zeroUNetW 5, constT 1 2 2 3 0, constT 1 2 2 3 0, constT 1 2 2 2 0,
        constT 1 2 2 2 0, (1 / 2 : ℝ)) =
      (zeroUNetW 5, constT 1 2 2 3 0, constT 1 2 2 3 0, constT 1 2 2 2 0,
        constT 1 2 2 2 0, (1 / 2 : ℝ))) ∧
    ((constT 1 2 2 3 0, constT 1 2 2 2 0, constT 1 2 2 1 0, constT 1 2 2 3 0,
        constT 1 2 2 2 0, constT 1 2 2 1 0, (1 / 2 : ℝ)) =
      (constT 1 2 2 3 0, constT 1 2 2 2 0, constT 1 2 2 1 0, constT 1 2 2 3 0,
        constT 1 2 2 2 0, constT 1 2 2 1 0, (1 / 2 : ℝ))) ∧
    UNet.call (zeroUNetW 5) (constT 1 2 2 1 0) =
      UNet.call (zeroUNetW 5) (constT 1 2 2 1 0) ∧
    Encoder.call (zeroEncoderW 64 5) (constT 1 2 2 1 0) =
      Encoder.call (zeroEncoderW 64 5) (constT 1 2 2 1 0) ∧
    Decoder.call (zeroDecoderW 32) (constT 1 2 2 1 0) (constT 1 4 4 1 0) =
      Decoder.call (zeroDecoderW 32) (constT 1 2 2 1 0) (constT 1 4 4 1 0) ∧
    BackWarp.call (constT 1 2 2 1 0) (constT 1 2 2 2 0) =
      BackWarp.call (constT 1 2 2 1 0) (constT 1 2 2 2 0) ∧
    OpticalFlow.call (zeroUNetW 5) (constT 1 2 2 3 0) (constT 1 2 2 3 0)
        (constT 1 2 2 2 0) (constT 1 2 2 2 0) (1 / 2) =
      OpticalFlow.call (zeroUNetW 5) (constT 1 2 2 3 0) (constT 1 2 2 3 0)
        (constT 1 2 2 2 0) (constT 1 2 2 2 0) (1 / 2) ∧
    Output.call (constT 1 2 2 3 0) (constT 1 2 2 2 0) (constT 1 2 2 1 0)
        (constT 1 2 2 3 0) (constT 1 2 2 2 0) (constT 1 2 2 1 0) (1 / 2) =
      Output.call (constT 1 2 2 3 0) (constT 1 2 2 2 0) (constT 1 2 2 1 0)
        (constT 1 2 2 3 0) (constT 1 2 2 2 0) (constT 1 2 2 1 0) (1 / 2) := by
  have h := C8_pure_deterministic
    (rfl : (zeroUNetW 5, constT 1 2 2 1 0) = (zeroUNetW 5, constT 1 2 2 1 0))
    (rfl : (zeroEncoderW 64 5, constT 1 2 2 1 0) =
      (zeroEncoderW 64 5, constT 1 2 2 1 0))
    (rfl : (zeroDecoderW 32, constT 1 2 2 1 0, constT 1 4 4 1 0) =
      (zeroDecoderW 32, constT 1 2 2 1 0, constT 1 4 4 1 0))
    (rfl : (constT 1 2 2 1 0, constT 1 2 2 2 0) =
      (constT 1 2 2 1 0, constT 1 2 2 2 0))
    (rfl : (zeroUNetW 5, constT 1 2 2 3 0, constT 1 2 2 3 0, constT 1 2 2 2 0,
        constT 1 2 2 2 0, (1 / 2 : ℝ)) =
      (zeroUNetW 5, constT 1 2 2 3 0, constT 1 2 2 3 0, constT 1 2 2 2 0,
        constT 1 2 2 2 0, (1 / 2 : ℝ)))
    (rfl : (constT 1 2 2 3 0, constT 1 2 2 2 0, constT 1 2 2 1 0,
        constT 1 2 2 3 0, constT 1 2 2 2 0, constT 1 2 2 1 0, (1 / 2 : ℝ)) =
      (constT 1 2 2 3 0, constT 1 2 2 2 0, constT 1 2 2 1 0, constT 1 2 2 3 0,
        constT 1 2 2 2 0, constT 1 2 2 1 0, (1 / 2 : ℝ)))
  exact ⟨rfl, rfl, rfl, rfl, rfl, rfl, h.1, h.2.1, h.2.2.1, h.2.2.2.1,
    h.2.2.2.2.1, h.2.2.2.2.2⟩

/-- At an integer in-range query coordinate, the clamped floor and clipped
interpolation weight of `interpolate_bilinear` either select the coordinate
itself with weight 0, or its predecessor with weight 1. -/
lemma clamp_cases (i size : Nat) (h : i < size) :
    (alphaTFA (i : ℝ) (clampFloorTFA (i : ℝ) size) = 0 ∧
      (clampFloorTFA (i : ℝ) size).toNat = i) ∨
    (alphaTFA (i : ℝ) (clampFloorTFA (i : ℝ) size) = 1 ∧
      (clampFloorTFA (i : ℝ) size + 1).toNat = i) := by
  have hfl : clampFloorTFA (i : ℝ) size = min (i : ℤ) ((size : ℤ) - 2) := by
    unfold clampFloorTFA
    rw [Int.floor_natCast]
    omega
  rcases le_or_lt (i : ℤ) ((size : ℤ) - 2) with hle | hgt
  · left
    have hf2 : clampFloorTFA (i : ℝ) size = (i : ℤ) := by omega
    refine ⟨?_, by omega⟩
    unfold alphaTFA
    rw [hf2]
    push_cast
    norm_num
  · right
    have hf2 : clampFloorTFA (i : ℝ) size = (size : ℤ) - 2 := by omega
    have hi2 : (i : ℤ) = (size : ℤ) - 1 := by omega
    refine ⟨?_, by omega⟩
    unfold alphaTFA
    rw [hf2]
    have hone : ((i : ℝ)) - (((size : ℤ) - 2 : ℤ) : ℝ) = 1 := by
      push_cast
      have hiR : (i : ℝ) = (size : ℝ) - 1 := by exact_mod_cast hi2
      linarith
    rw [hone]
    norm_num

/-- The clamped bilinear grid sampler is exact at integer in-range query
points. -/
lemma interpolateBilinear_at_natCast (img : Tensor4) (b c i j : Nat)
    (hi : i < img.height) (hj : j < img.width) :
    interpolateBilinear img b (i : ℝ) (j : ℝ) c = img.data b i j c := by
  simp only [interpolateBilinear]
  rcases clamp_cases i img.height hi with ⟨hay, hfy⟩ | ⟨hay, hfy⟩ <;>
    rcases clamp_cases j img.width hj with ⟨hax, hfx⟩ | ⟨hax, hfx⟩ <;>
      rw [hay, hax, hfy, hfx] <;> ring

/-- C5: `BackWarp.call` on `[image, flow]` preserves the image shape and
computes, at each output pixel `(b, i, j, c)`, the bilinearly interpolated
value of the image at query location `(i - flow[b,i,j,0], j - flow[b,i,j,1])`
(the `tfa.image.dense_image_warp` semantics); when the flow is identically
zero the output equals the input image at every in-range pixel. -/
theorem C5_backwarp (image flow : Tensor4) :
    ((BackWarp.call image flow).batch = image.batch ∧
      (BackWarp.call image flow).height = image.height ∧
      (BackWarp.call image flow).width = image.width ∧
      (BackWarp.call image flow).channels = image.channels) ∧
    (∀ b i j c, (BackWarp.call image flow).data b i j c =
        interpolateBilinear image b ((i : ℝ) - flow.data b i j 0)
          ((j : ℝ) - flow.data b i j 1) c) ∧
    ((∀ b i j k, flow.data b i j k = 0) →
      ∀ b c i j, i < image.height → j < image.width →
        (BackWarp.call image flow).data b i j c = image.data b i j c) := by
  refine ⟨⟨rfl, rfl, rfl, rfl⟩, fun b i j c => rfl, fun hz b c i j hi hj => ?_⟩
  show interpolateBilinear image b ((i : ℝ) - flow.data b i j 0)
      ((j : ℝ) - flow.data b i j 1) c = image.data b i j c
  rw [hz, hz, sub_zero, sub_zero]
  exact interpolateBilinear_at_natCast image b c i j hi hj

/-- C5 witness: warping a concrete 1x2x2x1 image with non-constant pixel
values by an all-zero flow reproduces the image at pixel (0,0,1,0). -/
theorem C5_backwarp_witness :
    (∀ b i j k, (constT 1 2 2 2 0).data b i j k = 0) ∧
    (0 : Nat) < rampT.height ∧ (1 : Nat) < rampT.width ∧
    (BackWarp.call rampT (constT 1 2 2 2 0)).data 0 0 1 0 = rampT.data 0 0 1 0 :=
  ⟨fun b i j k => rfl, by decide, by decide,
    (C5_backwarp rampT (constT 1 2 2 2 0)).2.2 (fun b i j k => rfl) 0 0 0 1
      (by decide) (by decide)⟩

/-- C7: for every input of shape `[B, H, W, C]` with `H, W ≥ 32` and built
weights, `UNet.call` returns a tensor of shape `[B, H, W, out_filters]`:
the encoders floor-halve the spatial dimensions five times and the decoders
double and pad them back, restoring the input spatial size exactly, also
when `H` or `W` is not divisible by 32. -/
theorem C7_unet_shape (w : UNetWeights) (x : Tensor4) (hw : UNetBuilt w)
    (hh : 32 ≤ x.height) (hww : 32 ≤ x.width) :
    (UNet.call w x).batch = x.batch ∧ (UNet.call w x).height = x.height ∧
    (UNet.call w x).width = x.width ∧
    (UNet.call w x).channels = w.out_filters := by
  obtain ⟨hc1, hc2, he1, he2, he3, he4, he5, hd1, hd2, hd3, hd4, hd5, hc3⟩ := hw
  have q1 : poolDim x.height = x.height / 2 := poolDim_eq (by omega)
  have q2 : poolDim (x.height / 2) = x.height / 2 / 2 := poolDim_eq (by omega)
  have q3 : poolDim (x.height / 2 / 2) = x.height / 2 / 2 / 2 :=
    poolDim_eq (by omega)
  have q4 : poolDim (x.height / 2 / 2 / 2) = x.height / 2 / 2 / 2 / 2 :=
    poolDim_eq (by omega)
  have q5 : poolDim (x.height / 2 / 2 / 2 / 2) = x.height / 2 / 2 / 2 / 2 / 2 :=
    poolDim_eq (by omega)
  have r1 : poolDim x.width = x.width / 2 := poolDim_eq (by omega)
  have r2 : poolDim (x.width / 2) = x.width / 2 / 2 := poolDim_eq (by omega)
  have r3 : poolDim (x.width / 2 / 2) = x.width / 2 / 2 / 2 :=
    poolDim_eq (by omega)
  have r4 : poolDim (x.width / 2 / 2 / 2) = x.width / 2 / 2 / 2 / 2 :=
    poolDim_eq (by omega)
  have r5 : poolDim (x.width / 2 / 2 / 2 / 2) = x.width / 2 / 2 / 2 / 2 / 2 :=
    poolDim_eq (by omega)
  refine ⟨?_, ?_, ?_, ?_⟩
  · simp only [UNet.call, Encoder.call, Decoder.call, leakyRelu_batch,
      conv2d_batch, avgPool2_batch, upSample2_batch, padBR_batch, concatC_batch]
  · simp only [UNet.call, Encoder.call, Decoder.call, leakyRelu_height,
      conv2d_height, avgPool2_height, upSample2_height, padBR_height,
      concatC_height]
    rw [q1, q2, q3, q4, q5]
    omega
  · simp only [UNet.call, Encoder.call, Decoder.call, leakyRelu_width,
      conv2d_width, avgPool2_width, upSample2_width, padBR_width, concatC_width]
    rw [r1, r2, r3, r4, r5]
    omega
  · simp only [UNet.call, Encoder.call, Decoder.call, leakyRelu_channels,
      conv2d_channels]
    exact hc3.1

/-- C7 witness: on a concrete 1x33x47x3 input (both spatial sizes not
divisible by 32) with built all-zero weights, the output shape is
1x33x47x5. -/
theorem C7_unet_shape_witness :
    UNetBuilt (zeroUNetW 5) ∧ 32 ≤ (constT 1 33 47 3 0).height ∧
    32 ≤ (constT 1 33 47 3 0).width ∧
    (UNet.call (zeroUNetW 5) (constT 1 33 47 3 0)).batch = 1 ∧
    (UNet.call (zeroUNetW 5) (constT 1 33 47 3 0)).height = 33 ∧
    (UNet.call (zeroUNetW 5) (constT 1 33 47 3 0)).width = 47 ∧
    (UNet.call (zeroUNetW 5) (constT 1 33 47 3 0)).channels = 5 := by
  have h := C7_unet_shape (zeroUNetW 5) (constT 1 33 47 3 0)
    (zeroUNetW_built 5) (by decide) (by decide)
  exact ⟨zeroUNetW_built 5, by decide, by decide, h.1, h.2.1, h.2.2.1, h.2.2.2⟩
